import Mathlib

/-!
# Verification of the weather-forecast aggregation service

Shallow embedding of `src/api/views.py` (functions `validate_days`,
`construct_forecast_payload`, `process_httperror`, and the view
`get_aggregated_weather_forecast`) together with proofs about the
embedded definitions.

Modelling conventions:
* Python floats are modelled as exact rationals (`ℚ`); `round(x, 1)` is
  modelled by `pyRound1` (round half to even, Python's rule).
* JSON values are modelled by the inductive `Json` (numbers, strings,
  null, arrays, objects).  A value that would make the Python code raise
  an exception is modelled by an `Option`-failure at the point where the
  Python code first touches the value in a way that raises; all such
  exceptions land in the same `except` handler in the source, so the
  embedding is extensionally faithful.
* `-math.inf` / `math.inf` starting accumulators for max/min are modelled
  by `Option ℚ` accumulators (`none` = infinite starting value).
* Python list indexing (which allows negative indices counting from the
  end) is modelled by `pyListGet` over `ℤ`.
* `int(...)` on a string is modelled by `pyInt` covering ASCII input:
  optional surrounding whitespace, optional sign, decimal digits with
  single underscores allowed between digits.
-/

namespace Weather

/-- JSON values, as delivered by `response.json()`. -/
inductive Json where
  | num (q : ℚ)
  | str (s : String)
  | null
  | arr (xs : List Json)
  | obj (fields : List (String × Json))

/-- Lookup of a key in the field list of a JSON object (Python `d[k]` /
`d.get(k)` on a dict produced by JSON parsing; first binding wins). -/
def lookupField : List (String × Json) → String → Option Json
  | [], _ => none
  | (k, v) :: rest, key => if k = key then some v else lookupField rest key

/-- Python `j[key]` on a JSON value: succeeds only on objects.
On any non-dict the Python subscript raises, which the callers catch. -/
def jLookup : Json → String → Option Json
  | .obj fs, key => lookupField fs key
  | _, _ => none

/-- Python list indexing `xs[i]`: non-negative indices from the front,
negative indices count from the end, out of range raises (here: `none`). -/
def pyListGet {α : Type} (xs : List α) (i : ℤ) : Option α :=
  if 0 ≤ i then xs.get? i.toNat
  else if (-i).toNat ≤ xs.length then xs.get? (xs.length - (-i).toNat)
  else none

/-- Extract a JSON array's elements; anything else makes the Python code
raise at the subsequent subscript/iteration. -/
def asArr : Json → Option (List Json)
  | .arr xs => some xs
  | _ => none

/-- Extract a numeric JSON value.  A non-numeric value makes the Python
source raise at the first arithmetic/comparison performed on it, which is
caught by the same handler, so failing at extraction is extensionally
faithful. -/
def asNum : Json → Option ℚ
  | .num q => some q
  | _ => none

/-! ## Python `round(x, 1)` -/

/-- Round a rational to the nearest integer, ties to even (Python's
`round` on floats uses banker's rounding). -/
def roundHalfEven (q : ℚ) : ℤ :=
  let f := ⌊q⌋
  let frac := q - (f : ℚ)
  if frac < 1/2 then f
  else if 1/2 < frac then f + 1
  else if Even f then f else f + 1

/-- Python `round(x, 1)`. -/
def pyRound1 (q : ℚ) : ℚ :=
  (roundHalfEven (q * 10) : ℚ) / 10

/-! ## Python `int(string)` -/

/-- ASCII whitespace stripped by Python's `int` around the literal. -/
def isPyWS (c : Char) : Bool :=
  c = ' ' || c = '\t' || c = '\n' || c = '\r' || c = '\x0b' || c = '\x0c'

/-- Numeric value of an ASCII digit character. -/
def digitVal (c : Char) : ℤ :=
  (c.toNat : ℤ) - ('0'.toNat : ℤ)

/-- Parse the remaining characters of an integer literal after its first
digit; a single underscore may stand between two digits. -/
def parseDigits : ℤ → List Char → Option ℤ
  | acc, [] => some acc
  | acc, c :: rest =>
    if c.isDigit then parseDigits (10 * acc + digitVal c) rest
    else if c = '_' then
      match rest with
      | c2 :: rest2 =>
        if c2.isDigit then parseDigits (10 * acc + digitVal c2) rest2 else none
      | [] => none
    else none

/-- Parse a sign-prefixed digit string (whitespace already stripped). -/
def pyIntCore (cs : List Char) : Option ℤ :=
  match cs with
  | [] => none
  | c :: rest =>
    let signed : ℤ × List Char :=
      if c = '+' then (1, rest) else if c = '-' then (-1, rest) else (1, cs)
    match signed.2 with
    | [] => none
    | d :: ds =>
      if d.isDigit then (parseDigits (digitVal d) ds).map (fun n => signed.1 * n)
      else none

/-- Python `int(s)` for an ASCII string: `none` models the
`ValueError` raised on an unparseable literal. -/
def pyInt (s : String) : Option ℤ :=
  pyIntCore (((s.toList.dropWhile isPyWS).reverse.dropWhile isPyWS).reverse)

/-! ## `validate_days` -/

/-- Result of `validate_days`: the Python function returns a pair
`(False, message)` or `(True, parsed_days)`. -/
inductive ValResult where
  | invalid (msg : String)
  | valid (n : ℤ)
deriving DecidableEq

/-- Embedding of `validate_days` (src/api/views.py).  `none` models the
`days` query parameter being absent. -/
def validate_days (no_of_days : Option String) : ValResult :=
  match no_of_days with
  | none => .invalid "Number of days has not been supplied."
  | some s =>
    match pyInt s with
    | none => .invalid "Invalid number of days provided."
    | some n =>
      if n > 14 then .invalid "The API can only forecast up to 14 days."
      else if n < 1 then .invalid "Number of days should range from 1 to 14."
      else .valid n

/-! ## `construct_forecast_payload` -/

/-- The success payload dictionary.  `maximum`/`minimum` are `Option ℚ`
because the running accumulators start at `-math.inf` / `math.inf`
(`none`); on every reachable success they are `some`. -/
structure ForecastData where
  maximum : Option ℚ
  minimum : Option ℚ
  average : ℚ
  median : ℚ
deriving DecidableEq

/-- Evaluation of `daily_forecasts[di]['hour'][hi]['temp_c']` from the
source's median computation. -/
def getTemp (daily : List Json) (di hi : ℤ) : Option ℚ :=
  (pyListGet daily di).bind fun dayJ =>
  (jLookup dayJ "hour").bind fun hoursJ =>
  (asArr hoursJ).bind fun hs =>
  (pyListGet hs hi).bind fun entry =>
  (jLookup entry "temp_c").bind fun tJ =>
  asNum tJ

/-- The inner loop `for hourly_forecast in forecast['hour']` accumulating
`running_sum`. -/
def sumTemps : List Json → ℚ → Option ℚ
  | [], acc => some acc
  | h :: t, acc =>
    ((jLookup h "temp_c").bind asNum).bind fun tq =>
    sumTemps t (acc + tq)

/-- Python `max(v, acc)` where `acc` starts from `-math.inf` (`none`). -/
def maxNI (v : ℚ) : Option ℚ → Option ℚ
  | none => some v
  | some a => some (max v a)

/-- Python `min(v, acc)` where `acc` starts from `math.inf` (`none`). -/
def minPI (v : ℚ) : Option ℚ → Option ℚ
  | none => some v
  | some a => some (min v a)

/-- The outer loop `for forecast in daily_forecasts` of the source,
threading `max_temp`, `min_temp` and `running_sum`. -/
def loopDays : List Json → Option ℚ → Option ℚ → ℚ → Option (Option ℚ × Option ℚ × ℚ)
  | [], mx, mn, s => some (mx, mn, s)
  | f :: rest, mx, mn, s =>
    (jLookup f "day").bind fun dayObj =>
    ((jLookup dayObj "maxtemp_c").bind asNum).bind fun mxv =>
    ((jLookup dayObj "mintemp_c").bind asNum).bind fun mnv =>
    (jLookup f "hour").bind fun hoursJ =>
    (asArr hoursJ).bind fun hs =>
    (sumTemps hs s).bind fun s2 =>
    loopDays rest (maxNI mxv mx) (minPI mnv mn) s2

/-- The `try` block of `construct_forecast_payload`; `none` models any
exception reaching the `except` handler.  The `body` argument is `none`
when `response.json()` itself raises (non-JSON body). -/
def construct_core (body : Option Json) : Option ForecastData :=
  body.bind fun root =>
  (jLookup root "forecast").bind fun fc =>
  (jLookup fc "forecastday").bind fun fdJ =>
  (asArr fdJ).bind fun daily =>
  let days := daily.length
  let record_count := days * 24
  let middle_position := record_count / 2
  let day_index := middle_position / 24
  let hour := middle_position % 24
  let data_points : (ℤ × ℤ) × (ℤ × ℤ) :=
    if hour = 0 then (((day_index : ℤ) - 1, 23), ((day_index : ℤ), (hour : ℤ)))
    else (((day_index : ℤ), (hour : ℤ) - 1), ((day_index : ℤ), (hour : ℤ)))
  (getTemp daily data_points.1.1 data_points.1.2).bind fun temp1 =>
  (getTemp daily data_points.2.1 data_points.2.2).bind fun temp2 =>
  let median_temp := pyRound1 ((temp1 + temp2) / 2)
  (loopDays daily none none 0).bind fun acc =>
  let avg_temp := pyRound1 (acc.2.2 / (record_count : ℚ))
  some ⟨acc.1, acc.2.1, pyRound1 avg_temp, median_temp⟩

/-- A response body surfaced to the client: either a (JSON) value such as
an error-message string, or the statistics dictionary. -/
inductive Body where
  | raw (j : Json)
  | stats (d : ForecastData)

/-- Embedding of `construct_forecast_payload`: returns the payload and an
error flag, exactly as the Python function returns
`(forecast_data, False)` or `('Internal server error.', True)`. -/
def construct_forecast_payload (body : Option Json) : Body × Bool :=
  match construct_core body with
  | some d => (.stats d, false)
  | none => (.raw (.str "Internal server error."), true)

/-! ## `process_httperror` -/

/-- Embedding of `process_httperror`.  `body` is the upstream error
response body parsed as JSON (`none` models a body that is absent or not
JSON, making `exc.response.json()` raise); `reason` is
`exc.response.reason`.  Every failure path inside the `try` falls back to
the reason phrase. -/
def process_httperror (body : Option Json) (reason : String) : Json :=
  match body with
  | none => .str reason
  | some msg =>
    match msg with
    | .obj fs =>
      match lookupField fs "error" with
      | none => .str reason
      | some ev =>
        match ev with
        | .obj efs =>
          match lookupField efs "message" with
          | none => .str reason
          | some m => if jFalsy m then .str reason else m
        | _ => .str reason
    | _ => .str reason
where
  /-- Python truthiness of a JSON value, for `error_msg or reason`. -/
  jFalsy : Json → Bool
    | .null => true
    | .str s => s.isEmpty
    | .num q => q = 0
    | .arr xs => xs.isEmpty
    | .obj fs => fs.isEmpty

/-! ## The view `get_aggregated_weather_forecast` -/

/-- The kind of non-`HTTPError` exception raised by `requests.get`;
the source's `except Exception` branch treats all of them alike. -/
inductive TransportKind where
  | connectionError
  | timeout
  | otherException

/-- Outcome of the single upstream `requests.get` call, as seen by the
view after `raise_for_status()`. -/
inductive Upstream where
  /-- No HTTP response at all; `excText` is the exception's text. -/
  | transport (kind : TransportKind) (excText : String)
  /-- Non-2xx response: its JSON body (if parseable) and reason phrase. -/
  | httpError (body : Option Json) (reason : String)
  /-- 2xx response: its JSON body (`none` if the body is not JSON). -/
  | success (body : Option Json)

/-- A response to the client: body plus HTTP status code. -/
structure HttpResponse where
  body : Body
  status : ℕ

/-- Embedding of the view `get_aggregated_weather_forecast`.  The `city`
string only feeds the outbound request and never influences the
response construction, so it is threaded but unused; the upstream
outcome is a parameter. -/
def get_aggregated_weather_forecast (_city : String) (days : Option String)
    (upstream : Upstream) : HttpResponse :=
  match validate_days days with
  | .invalid m => ⟨.raw (.str m), 400⟩
  | .valid _ =>
    match upstream with
    | .transport _ _ => ⟨.raw (.str "Internal server error."), 500⟩
    | .httpError b reason => ⟨.raw (process_httperror b reason), 400⟩
    | .success b =>
      let res := construct_forecast_payload b
      ⟨res.1, if res.2 then 500 else 200⟩

/-! ## Structured well-formed payloads

The spec's data model: a `Day` carries the day-level max/min fields and
the hourly temperatures; `encodeForecast` produces exactly the JSON shape
the upstream provider documents. -/

/-- One forecast day as in the provider's documented shape. -/
structure Day where
  maxT : ℚ
  minT : ℚ
  hours : List ℚ
deriving DecidableEq

/-- Encode one day as its JSON object. -/
def encodeDay (d : Day) : Json :=
  .obj [("day", .obj [("maxtemp_c", .num d.maxT), ("mintemp_c", .num d.minT)]),
        ("hour", .arr (d.hours.map (fun t => .obj [("temp_c", .num t)])))]

/-- Encode a forecast set as the provider's documented JSON document. -/
def encodeForecast (ds : List Day) : Json :=
  .obj [("forecast", .obj [("forecastday", .arr (ds.map encodeDay))])]

/-! ## Spec-side definitions (used to state the claims)

`specSel` and `medianSpec` transcribe the median rule exactly as the
specification words it, to be compared against the embedded code. -/

/-- The two (day index, hour index) positions the spec says the median
uses: `mid = N / 2`, `dayIndex = mid / 24`, `hourIndex = mid % 24`;
cross-day pair when `hourIndex = 0`, adjacent pair otherwise. -/
def specSel (ds : List Day) : (ℕ × ℕ) × (ℕ × ℕ) :=
  if (ds.length * 24) / 2 % 24 = 0 then
    (((ds.length * 24) / 2 / 24 - 1, 23), ((ds.length * 24) / 2 / 24, 0))
  else
    (((ds.length * 24) / 2 / 24, (ds.length * 24) / 2 % 24 - 1),
     ((ds.length * 24) / 2 / 24, (ds.length * 24) / 2 % 24))

/-- The hourly temperature at a (day index, hour index) position. -/
def hourTempD (ds : List Day) (p : ℕ × ℕ) : ℚ :=
  ((ds.getD p.1 ⟨0, 0, []⟩).hours.getD p.2 0)

/-- The median as the spec words it: the average of the two selected
hourly temperatures, rounded to one decimal place. -/
def medianSpec (ds : List Day) : ℚ :=
  pyRound1 ((hourTempD ds (specSel ds).1 + hourTempD ds (specSel ds).2) / 2)

/-- The running maximum over the day-level `maxtemp_c` fields, as the
source's loop computes it. -/
def foldMax (ds : List Day) (mx : Option ℚ) : Option ℚ :=
  ds.foldl (fun a d => maxNI d.maxT a) mx

/-- The running minimum over the day-level `mintemp_c` fields. -/
def foldMin (ds : List Day) (mn : Option ℚ) : Option ℚ :=
  ds.foldl (fun a d => minPI d.minT a) mn

/-- The sum of all hourly temperatures of a forecast set. -/
def totalSum (ds : List Day) : ℚ :=
  (ds.map (fun d => d.hours.sum)).sum

/-- A JSON body contains the value `m` at path `error.message`. -/
def hasMessage (j m : Json) : Prop :=
  ∃ eo, jLookup j "error" = some eo ∧ jLookup eo "message" = some m

/-! ## Lemmas about rounding -/

theorem roundHalfEven_intCast (n : ℤ) : roundHalfEven (n : ℚ) = n := by
  unfold roundHalfEven
  rw [Int.floor_intCast]
  norm_num

theorem pyRound1_idem (q : ℚ) : pyRound1 (pyRound1 q) = pyRound1 q := by
  unfold pyRound1
  rw [div_mul_cancel₀ _ (by norm_num : (10 : ℚ) ≠ 0), roundHalfEven_intCast]

/-! ## Lemmas about list and JSON access on encoded payloads -/

theorem pyListGet_natCast {α : Type} (xs : List α) (n : ℕ) (h : n < xs.length) :
    pyListGet xs (n : ℤ) = some (xs.get ⟨n, h⟩) := by
  unfold pyListGet
  rw [if_pos (Int.natCast_nonneg n)]
  simp [List.get?_eq_get h]

theorem jLookup_forecast (ds : List Day) :
    jLookup (encodeForecast ds) "forecast" =
      some (Json.obj [("forecastday", Json.arr (ds.map encodeDay))]) := rfl

theorem jLookup_forecastday (ds : List Day) :
    jLookup (Json.obj [("forecastday", Json.arr (ds.map encodeDay))]) "forecastday" =
      some (Json.arr (ds.map encodeDay)) := rfl

theorem jLookup_day (d : Day) :
    jLookup (encodeDay d) "day" =
      some (Json.obj [("maxtemp_c", Json.num d.maxT), ("mintemp_c", Json.num d.minT)]) := rfl

theorem jLookup_hour (d : Day) :
    jLookup (encodeDay d) "hour" =
      some (Json.arr (d.hours.map (fun t => Json.obj [("temp_c", Json.num t)]))) := by
  simp [encodeDay, jLookup, lookupField]

theorem getTemp_encode (ds : List Day) (n hi : ℕ) (hn : n < ds.length)
    (hhi : hi < (ds.get ⟨n, hn⟩).hours.length) :
    getTemp (ds.map encodeDay) (n : ℤ) (hi : ℤ) =
      some ((ds.get ⟨n, hn⟩).hours.get ⟨hi, hhi⟩) := by
  unfold getTemp
  rw [pyListGet_natCast (ds.map encodeDay) n (by simpa using hn)]
  rw [List.get_map]
  rw [Option.some_bind, jLookup_hour, Option.some_bind]
  show (asArr (Json.arr _)).bind _ = _
  rw [show asArr (Json.arr ((ds.get ⟨n, hn⟩).hours.map (fun t => Json.obj [("temp_c", Json.num t)]))) = some ((ds.get ⟨n, hn⟩).hours.map (fun t => Json.obj [("temp_c", Json.num t)])) from rfl]
  rw [Option.some_bind]
  rw [pyListGet_natCast _ hi (by simpa using hhi)]
  rw [List.get_map, Option.some_bind]
  rfl

theorem sumTemps_encode (hs : List ℚ) (acc : ℚ) :
    sumTemps (hs.map (fun t => Json.obj [("temp_c", Json.num t)])) acc =
      some (acc + hs.sum) := by
  induction hs generalizing acc with
  | nil => simp [sumTemps]
  | cons h t ih =>
    show sumTemps _ _ = _
    rw [List.map_cons]
    show (((jLookup (Json.obj [("temp_c", Json.num h)]) "temp_c").bind asNum).bind fun tq =>
        sumTemps (t.map (fun t => Json.obj [("temp_c", Json.num t)])) (acc + tq)) = _
    rw [show ((jLookup (Json.obj [("temp_c", Json.num h)]) "temp_c").bind asNum) = some h from rfl]
    rw [Option.some_bind, ih]
    rw [List.sum_cons]
    ring_nf

theorem loopDays_encode (ds : List Day) (mx mn : Option ℚ) (s : ℚ) :
    loopDays (ds.map encodeDay) mx mn s =
      some (foldMax ds mx, foldMin ds mn, s + totalSum ds) := by
  induction ds generalizing mx mn s with
  | nil => simp [loopDays, foldMax, foldMin, totalSum]
  | cons d tl ih =>
    rw [List.map_cons]
    show ((jLookup (encodeDay d) "day").bind fun dayObj =>
        ((jLookup dayObj "maxtemp_c").bind asNum).bind fun mxv =>
        ((jLookup dayObj "mintemp_c").bind asNum).bind fun mnv =>
        (jLookup (encodeDay d) "hour").bind fun hoursJ =>
        (asArr hoursJ).bind fun hs =>
        (sumTemps hs s).bind fun s2 =>
        loopDays (tl.map encodeDay) (maxNI mxv mx) (minPI mnv mn) s2) = _
    rw [jLookup_day, Option.some_bind]
    rw [show ((jLookup (Json.obj [("maxtemp_c", Json.num d.maxT), ("mintemp_c", Json.num d.minT)]) "maxtemp_c").bind asNum) = some d.maxT from rfl, Option.some_bind]
    rw [show ((jLookup (Json.obj [("maxtemp_c", Json.num d.maxT), ("mintemp_c", Json.num d.minT)]) "mintemp_c").bind asNum) = some d.minT from by simp [jLookup, lookupField, asNum], Option.some_bind]
    rw [jLookup_hour, Option.some_bind]
    rw [show asArr (Json.arr (d.hours.map (fun t => Json.obj [("temp_c", Json.num t)]))) = some (d.hours.map (fun t => Json.obj [("temp_c", Json.num t)])) from rfl, Option.some_bind]
    rw [sumTemps_encode, Option.some_bind, ih]
    simp only [foldMax, foldMin, totalSum, List.foldl_cons, List.map_cons, List.sum_cons]
    ring_nf

/-- Characterization of `construct_core` on a well-formed encoded
payload: it succeeds, the extremes are the loop folds, the average is the
double-rounded total sum over `D * 24`, and the median is exactly the
spec's two-element rule. -/
theorem construct_core_encode (ds : List Day) (hne : ds ≠ [])
    (h24 : ∀ d ∈ ds, d.hours.length = 24) :
    construct_core (some (encodeForecast ds)) =
      some ⟨foldMax ds none, foldMin ds none,
            pyRound1 (pyRound1 (totalSum ds / ((ds.length * 24 : ℕ) : ℚ))),
            medianSpec ds⟩ := by
  have hD : 1 ≤ ds.length := List.length_pos.mpr hne
  have hlen : ∀ (n : ℕ) (hn : n < ds.length), (ds.get ⟨n, hn⟩).hours.length = 24 :=
    fun n hn => h24 _ (ds.get_mem n hn)
  unfold construct_core
  rw [Option.some_bind, jLookup_forecast, Option.some_bind, jLookup_forecastday,
    Option.some_bind]
  rw [show asArr (Json.arr (ds.map encodeDay)) = some (ds.map encodeDay) from rfl,
    Option.some_bind]
  simp only [List.length_map]
  unfold medianSpec hourTempD specSel
  rcases Nat.even_or_odd ds.length with ⟨k, hk⟩ | ⟨k, hk⟩
  · -- even number of days: the cross-day pair
    have hk1 : 1 ≤ k := by omega
    have e0 : ds.length * 24 / 2 % 24 = 0 := by omega
    have e1 : ds.length * 24 / 2 / 24 = k := by omega
    have hb1 : k - 1 < ds.length := by omega
    have hb2 : k < ds.length := by omega
    have hh1 : 23 < (ds.get ⟨k - 1, hb1⟩).hours.length := by rw [hlen]; omega
    have hh2 : 0 < (ds.get ⟨k, hb2⟩).hours.length := by rw [hlen]; omega
    rw [e0, e1]
    rw [if_pos rfl, if_pos rfl]
    simp only
    rw [show ((k : ℤ) - 1) = ((k - 1 : ℕ) : ℤ) by omega]
    rw [show ((23 : ℤ)) = ((23 : ℕ) : ℤ) by norm_num]
    rw [show (((0 : ℕ) : ℤ)) = (((0 : ℕ) : ℕ) : ℤ) by norm_num]
    rw [getTemp_encode ds (k - 1) 23 hb1 hh1, Option.some_bind]
    rw [getTemp_encode ds k 0 hb2 hh2, Option.some_bind]
    rw [loopDays_encode, Option.some_bind]
    rw [List.getD_eq_get ds _ hb1, List.getD_eq_get _ _ hh1,
      List.getD_eq_get ds _ hb2, List.getD_eq_get _ _ hh2]
    rw [zero_add]
  · -- odd number of days: the adjacent pair within one day
    have e0 : ds.length * 24 / 2 % 24 = 12 := by omega
    have e1 : ds.length * 24 / 2 / 24 = k := by omega
    have hb : k < ds.length := by omega
    have hh1 : 11 < (ds.get ⟨k, hb⟩).hours.length := by rw [hlen]; omega
    have hh2 : 12 < (ds.get ⟨k, hb⟩).hours.length := by rw [hlen]; omega
    rw [e0, e1]
    rw [if_neg (by norm_num), if_neg (by norm_num)]
    simp only
    rw [show (((12 : ℕ) : ℤ) - 1) = ((11 : ℕ) : ℤ) by norm_num]
    rw [getTemp_encode ds k 11 hb hh1, Option.some_bind]
    rw [getTemp_encode ds k 12 hb hh2, Option.some_bind]
    rw [loopDays_encode, Option.some_bind]
    rw [List.getD_eq_get ds _ hb, List.getD_eq_get _ _ hh1, List.getD_eq_get _ _ hh2]
    rw [zero_add]

theorem foldMax_some (ds : List Day) (a : ℚ) :
    ∃ m, foldMax ds (some a) = some m ∧ (m = a ∨ m ∈ ds.map Day.maxT) ∧ a ≤ m ∧
      ∀ x ∈ ds.map Day.maxT, x ≤ m := by
  induction ds generalizing a with
  | nil => exact ⟨a, rfl, Or.inl rfl, le_refl a, by simp⟩
  | cons d tl ih =>
    obtain ⟨m, hm, hmem, hle, hub⟩ := ih (max d.maxT a)
    refine ⟨m, ?_, ?_, ?_, ?_⟩
    · simpa [foldMax, maxNI] using hm
    · rcases hmem with h | h
      · rcases max_choice d.maxT a with hc | hc
        · exact Or.inr (by simp [h, hc])
        · exact Or.inl (h.trans hc)
      · exact Or.inr (by simp [h])
    · exact (le_max_right d.maxT a).trans hle
    · intro x hx
      rcases List.mem_map.mp hx with ⟨e, he, rfl⟩
      rcases List.mem_cons.mp he with rfl | htl
      · exact (le_max_left e.maxT a).trans hle
      · exact hub _ (List.mem_map.mpr ⟨e, htl, rfl⟩)

theorem foldMax_ne_nil (ds : List Day) (hne : ds ≠ []) :
    ∃ m, foldMax ds none = some m ∧ m ∈ ds.map Day.maxT ∧
      ∀ x ∈ ds.map Day.maxT, x ≤ m := by
  match ds with
  | [] => exact absurd rfl hne
  | d :: tl =>
    obtain ⟨m, hm, hmem, hle, hub⟩ := foldMax_some tl d.maxT
    refine ⟨m, by simpa [foldMax, maxNI] using hm, ?_, ?_⟩
    · rcases hmem with h | h
      · simp [h]
      · rcases List.mem_map.mp h with ⟨e, he, rfl⟩
        exact List.mem_map_of_mem _ (List.mem_cons_of_mem d he)
    · intro x hx
      rcases List.mem_map.mp hx with ⟨e, he, rfl⟩
      rcases List.mem_cons.mp he with rfl | htl
      · exact hle
      · exact hub _ (List.mem_map.mpr ⟨e, htl, rfl⟩)

theorem foldMin_some (ds : List Day) (a : ℚ) :
    ∃ m, foldMin ds (some a) = some m ∧ (m = a ∨ m ∈ ds.map Day.minT) ∧ m ≤ a ∧
      ∀ x ∈ ds.map Day.minT, m ≤ x := by
  induction ds generalizing a with
  | nil => exact ⟨a, rfl, Or.inl rfl, le_refl a, by simp⟩
  | cons d tl ih =>
    obtain ⟨m, hm, hmem, hle, hlb⟩ := ih (min d.minT a)
    refine ⟨m, ?_, ?_, ?_, ?_⟩
    · simpa [foldMin, minPI] using hm
    · rcases hmem with h | h
      · rcases min_choice d.minT a with hc | hc
        · exact Or.inr (by simp [h, hc])
        · exact Or.inl (h.trans hc)
      · exact Or.inr (by simp [h])
    · exact hle.trans (min_le_right d.minT a)
    · intro x hx
      rcases List.mem_map.mp hx with ⟨e, he, rfl⟩
      rcases List.mem_cons.mp he with rfl | htl
      · exact hle.trans (min_le_left e.minT a)
      · exact hlb _ (List.mem_map.mpr ⟨e, htl, rfl⟩)

theorem foldMin_ne_nil (ds : List Day) (hne : ds ≠ []) :
    ∃ m, foldMin ds none = some m ∧ m ∈ ds.map Day.minT ∧
      ∀ x ∈ ds.map Day.minT, m ≤ x := by
  match ds with
  | [] => exact absurd rfl hne
  | d :: tl =>
    obtain ⟨m, hm, hmem, hle, hlb⟩ := foldMin_some tl d.minT
    refine ⟨m, by simpa [foldMin, minPI] using hm, ?_, ?_⟩
    · rcases hmem with h | h
      · simp [h]
      · rcases List.mem_map.mp h with ⟨e, he, rfl⟩
        exact List.mem_map_of_mem _ (List.mem_cons_of_mem d he)
    · intro x hx
      rcases List.mem_map.mp hx with ⟨e, he, rfl⟩
      rcases List.mem_cons.mp he with rfl | htl
      · exact hle
      · exact hlb _ (List.mem_map.mpr ⟨e, htl, rfl⟩)

/-! ## Claim theorems -/

/-- C1: for every successfully parsed forecast payload of `D ≥ 1` days
(each with 24 hourly readings), the aggregator computes the median by the
two-element rule: with `N = D * 24`, `mid = N / 2`,
`dayIndex = mid / 24`, `hourIndex = mid % 24`, it selects the readings at
`(dayIndex - 1, 23)` and `(dayIndex, 0)` when `hourIndex = 0` and at
`(dayIndex, hourIndex - 1)` and `(dayIndex, hourIndex)` otherwise, and
returns the average of exactly those two hourly temperatures rounded to
one decimal place, regardless of the parity of `N` (this rule is
`medianSpec`/`specSel`, transcribed from the claim). -/
theorem median_two_element_rule (ds : List Day) (hne : ds ≠ [])
    (h24 : ∀ d ∈ ds, d.hours.length = 24) :
    ∃ d, construct_forecast_payload (some (encodeForecast ds)) = (Body.stats d, false) ∧
      d.median = medianSpec ds := by
  refine ⟨⟨foldMax ds none, foldMin ds none,
    pyRound1 (pyRound1 (totalSum ds / ((ds.length * 24 : ℕ) : ℚ))), medianSpec ds⟩, ?_, rfl⟩
  unfold construct_forecast_payload
  rw [construct_core_encode ds hne h24]

/-- Witness for C1: a concrete two-day payload (the cross-day case). -/
theorem median_two_element_rule_witness :
    (([⟨5, 1, List.replicate 24 2⟩, ⟨6, 0, List.replicate 24 4⟩] : List Day) ≠ [] ∧
      ∀ d ∈ ([⟨5, 1, List.replicate 24 2⟩, ⟨6, 0, List.replicate 24 4⟩] : List Day),
        d.hours.length = 24) ∧
    ∃ d, construct_forecast_payload
        (some (encodeForecast [⟨5, 1, List.replicate 24 2⟩, ⟨6, 0, List.replicate 24 4⟩])) =
        (Body.stats d, false) ∧
      d.median = medianSpec [⟨5, 1, List.replicate 24 2⟩, ⟨6, 0, List.replicate 24 4⟩] :=
  ⟨⟨by decide, by decide⟩,
    median_two_element_rule [⟨5, 1, List.replicate 24 2⟩, ⟨6, 0, List.replicate 24 4⟩]
      (by decide) (by decide)⟩

/-- C6: for every successfully parsed forecast set of `D` days with 24
hourly readings each, the returned average is the sum of all `D * 24`
hourly temperatures divided by `D * 24`, rounded to one decimal place
(the source rounds twice, which is value-equal by idempotence of
rounding). -/
theorem average_is_rounded_mean (ds : List Day) (hne : ds ≠ [])
    (h24 : ∀ d ∈ ds, d.hours.length = 24) :
    ∃ d, construct_forecast_payload (some (encodeForecast ds)) = (Body.stats d, false) ∧
      d.average = pyRound1 (totalSum ds / ((ds.length * 24 : ℕ) : ℚ)) := by
  refine ⟨⟨foldMax ds none, foldMin ds none,
    pyRound1 (pyRound1 (totalSum ds / ((ds.length * 24 : ℕ) : ℚ))), medianSpec ds⟩, ?_, ?_⟩
  · unfold construct_forecast_payload
    rw [construct_core_encode ds hne h24]
  · exact pyRound1_idem _

/-- Witness for C6: a concrete one-day payload. -/
theorem average_is_rounded_mean_witness :
    (([⟨30, 10, List.replicate 24 3⟩] : List Day) ≠ [] ∧
      ∀ d ∈ ([⟨30, 10, List.replicate 24 3⟩] : List Day), d.hours.length = 24) ∧
    ∃ d, construct_forecast_payload (some (encodeForecast [⟨30, 10, List.replicate 24 3⟩])) =
        (Body.stats d, false) ∧
      d.average = pyRound1 (totalSum [⟨30, 10, List.replicate 24 3⟩] / ((1 * 24 : ℕ) : ℚ)) :=
  ⟨⟨by decide, by decide⟩,
    average_is_rounded_mean [⟨30, 10, List.replicate 24 3⟩] (by decide) (by decide)⟩

/-- C5: for every successfully parsed forecast set, the returned maximum
is the largest day-level `maxtemp_c` across all days and the returned
minimum is the smallest day-level `mintemp_c`; both are members of the
day-level field lists, i.e. carried through exactly as provided with no
rounding applied by the aggregator. -/
theorem extremes_day_level (ds : List Day) (hne : ds ≠ [])
    (h24 : ∀ d ∈ ds, d.hours.length = 24) :
    ∃ d mx mn, construct_forecast_payload (some (encodeForecast ds)) = (Body.stats d, false) ∧
      d.maximum = some mx ∧ mx ∈ ds.map Day.maxT ∧ (∀ x ∈ ds.map Day.maxT, x ≤ mx) ∧
      d.minimum = some mn ∧ mn ∈ ds.map Day.minT ∧ (∀ x ∈ ds.map Day.minT, mn ≤ x) := by
  obtain ⟨mx, hmx, hmxmem, hmxub⟩ := foldMax_ne_nil ds hne
  obtain ⟨mn, hmn, hmnmem, hmnlb⟩ := foldMin_ne_nil ds hne
  refine ⟨⟨foldMax ds none, foldMin ds none,
    pyRound1 (pyRound1 (totalSum ds / ((ds.length * 24 : ℕ) : ℚ))), medianSpec ds⟩,
    mx, mn, ?_, hmx, hmxmem, hmxub, hmn, hmnmem, hmnlb⟩
  unfold construct_forecast_payload
  rw [construct_core_encode ds hne h24]

/-- Witness for C5: a concrete two-day payload. -/
theorem extremes_day_level_witness :
    (([⟨5, 1, List.replicate 24 2⟩, ⟨6, 0, List.replicate 24 4⟩] : List Day) ≠ [] ∧
      ∀ d ∈ ([⟨5, 1, List.replicate 24 2⟩, ⟨6, 0, List.replicate 24 4⟩] : List Day),
        d.hours.length = 24) ∧
    ∃ d mx mn, construct_forecast_payload
        (some (encodeForecast [⟨5, 1, List.replicate 24 2⟩, ⟨6, 0, List.replicate 24 4⟩])) =
        (Body.stats d, false) ∧
      d.maximum = some mx ∧
      mx ∈ ([⟨5, 1, List.replicate 24 2⟩, ⟨6, 0, List.replicate 24 4⟩] : List Day).map Day.maxT ∧
      (∀ x ∈ ([⟨5, 1, List.replicate 24 2⟩, ⟨6, 0, List.replicate 24 4⟩] : List Day).map Day.maxT,
        x ≤ mx) ∧
      d.minimum = some mn ∧
      mn ∈ ([⟨5, 1, List.replicate 24 2⟩, ⟨6, 0, List.replicate 24 4⟩] : List Day).map Day.minT ∧
      (∀ x ∈ ([⟨5, 1, List.replicate 24 2⟩, ⟨6, 0, List.replicate 24 4⟩] : List Day).map Day.minT,
        mn ≤ x) :=
  ⟨⟨by decide, by decide⟩,
    extremes_day_level [⟨5, 1, List.replicate 24 2⟩, ⟨6, 0, List.replicate 24 4⟩]
      (by decide) (by decide)⟩

/-- C3: the validator, in order: absent input fails with the
"not supplied" message; an unparseable value fails with the "invalid"
message (short-circuiting before any range check); a parsed value above
14 fails with the "up to 14 days" message; a parsed value below 1 fails
with the "range from 1 to 14" message; otherwise it succeeds carrying
the parsed integer.  The validator is a pure function with no side
effects. -/
theorem validate_days_cases (raw : Option String) :
    (raw = none → validate_days raw = .invalid "Number of days has not been supplied.") ∧
    (∀ s, raw = some s → pyInt s = none →
      validate_days raw = .invalid "Invalid number of days provided.") ∧
    (∀ s n, raw = some s → pyInt s = some n → 14 < n →
      validate_days raw = .invalid "The API can only forecast up to 14 days.") ∧
    (∀ s n, raw = some s → pyInt s = some n → n < 1 →
      validate_days raw = .invalid "Number of days should range from 1 to 14.") ∧
    (∀ s n, raw = some s → pyInt s = some n → 1 ≤ n → n ≤ 14 →
      validate_days raw = .valid n) := by
  refine ⟨?_, ?_, ?_, ?_, ?_⟩
  · rintro rfl; rfl
  · rintro s rfl h
    simp only [validate_days, h]
  · rintro s n rfl h hgt
    simp only [validate_days, h]
    rw [if_pos (by omega)]
  · rintro s n rfl h hlt
    simp only [validate_days, h]
    rw [if_neg (by omega), if_pos (by omega)]
  · rintro s n rfl h h1 h14
    simp only [validate_days, h]
    rw [if_neg (by omega), if_neg (by omega)]

/-- Witness for C3: the out-of-range value "20" gets the upper-bound
message. -/
theorem validate_days_cases_witness :
    pyInt "20" = some 20 ∧ (14 : ℤ) < 20 ∧
    validate_days (some "20") = .invalid "The API can only forecast up to 14 days." :=
  ⟨by decide, by decide,
    (validate_days_cases (some "20")).2.2.1 "20" 20 rfl (by decide) (by decide)⟩

/-- C9: the validator accepts every string the embedded Python `int`
parser accepts and carries the parsed integer forward; in particular the
non-canonical spellings " 7 " (surrounding whitespace), "+7" (explicit
sign), "007" (leading zeros) and "1_4" (underscore digit grouping)
validate to 7, 7, 7 and 14 respectively. -/
theorem validator_accepts_python_int (s : String) (n : ℤ) :
    (pyInt s = some n → 1 ≤ n → n ≤ 14 → validate_days (some s) = .valid n) ∧
    validate_days (some " 7 ") = .valid 7 ∧
    validate_days (some "+7") = .valid 7 ∧
    validate_days (some "007") = .valid 7 ∧
    validate_days (some "1_4") = .valid 14 := by
  refine ⟨?_, by decide, by decide, by decide, by decide⟩
  intro h h1 h14
  simp only [validate_days, h]
  rw [if_neg (by omega), if_neg (by omega)]

/-- Witness for C9: " 7 " parses to 7 and validates to 7. -/
theorem validator_accepts_python_int_witness :
    pyInt " 7 " = some 7 ∧ validate_days (some " 7 ") = .valid 7 :=
  ⟨by decide,
    (validator_accepts_python_int " 7 " 7).1 (by decide) (by decide) (by decide)⟩

/-- C7: when the upstream call fails at the transport level (connection
error, timeout, or any other non-HTTP exception, with no response), the
endpoint returns status 500 with the fixed message
"Internal server error.", independently of the kind of transport failure
and of the underlying exception text, which is never surfaced. -/
theorem transport_failure_masked (city : String) (days : Option String) (n : ℤ)
    (hv : validate_days days = .valid n) :
    (∀ (kind : TransportKind) (excText : String),
      get_aggregated_weather_forecast city days (.transport kind excText) =
        ⟨.raw (.str "Internal server error."), 500⟩) ∧
    (∀ (kind1 kind2 : TransportKind) (t1 t2 : String),
      get_aggregated_weather_forecast city days (.transport kind1 t1) =
        get_aggregated_weather_forecast city days (.transport kind2 t2)) := by
  constructor
  · intro kind excText
    unfold get_aggregated_weather_forecast
    rw [hv]
  · intro kind1 kind2 t1 t2
    unfold get_aggregated_weather_forecast
    rw [hv]

/-- Witness for C7: a timeout with a secret exception text yields the
generic 500 with no trace of the text. -/
theorem transport_failure_masked_witness :
    validate_days (some "3") = .valid 3 ∧
    get_aggregated_weather_forecast "LONDON" (some "3")
        (.transport .timeout "ReadTimeout: secret internal detail") =
      ⟨.raw (.str "Internal server error."), 500⟩ ∧
    get_aggregated_weather_forecast "LONDON" (some "3")
        (.transport .timeout "ReadTimeout: secret internal detail") =
      get_aggregated_weather_forecast "LONDON" (some "3")
        (.transport .connectionError "ConnectionError: other detail") :=
  ⟨by decide,
    (transport_failure_masked "LONDON" (some "3") 3 (by decide)).1 .timeout
      "ReadTimeout: secret internal detail",
    (transport_failure_masked "LONDON" (some "3") 3 (by decide)).2 .timeout
      .connectionError "ReadTimeout: secret internal detail"
      "ConnectionError: other detail"⟩

/-- C8: when the day-count parameter fails validation, the endpoint
returns the validation message with status 400 for every possible
behaviour of the upstream collaborator, and its response is identical for
any two upstream behaviours — the outcome does not depend on the
upstream provider at all (no upstream call can influence it). -/
theorem validation_noninterference (city : String) (days : Option String) (m : String)
    (hv : validate_days days = .invalid m) :
    (∀ u : Upstream, get_aggregated_weather_forecast city days u = ⟨.raw (.str m), 400⟩) ∧
    (∀ u1 u2 : Upstream, get_aggregated_weather_forecast city days u1 =
      get_aggregated_weather_forecast city days u2) := by
  constructor
  · intro u
    unfold get_aggregated_weather_forecast
    rw [hv]
  · intro u1 u2
    unfold get_aggregated_weather_forecast
    rw [hv]

/-- Witness for C8: with the parameter missing, a transport failure and a
successful upstream response produce the identical 400 response. -/
theorem validation_noninterference_witness :
    validate_days none = .invalid "Number of days has not been supplied." ∧
    get_aggregated_weather_forecast "LONDON" none (.transport .timeout "boom") =
      ⟨.raw (.str "Number of days has not been supplied."), 400⟩ ∧
    get_aggregated_weather_forecast "LONDON" none (.transport .timeout "boom") =
      get_aggregated_weather_forecast "LONDON" none (.success none) :=
  ⟨by decide,
    (validation_noninterference "LONDON" none "Number of days has not been supplied."
      (by decide)).1 (.transport .timeout "boom"),
    (validation_noninterference "LONDON" none "Number of days has not been supplied."
      (by decide)).2 (.transport .timeout "boom") (.success none)⟩

theorem process_httperror_hasMessage (j m : Json) (reason : String)
    (h : hasMessage j m) :
    process_httperror (some j) reason =
      if process_httperror.jFalsy m then .str reason else m := by
  obtain ⟨eo, heo, hm⟩ := h
  cases j with
  | obj fs =>
    cases eo with
    | obj efs =>
      simp only [process_httperror, show lookupField fs "error" = some (Json.obj efs) from heo,
        show lookupField efs "message" = some m from hm]
    | num q => exact absurd hm (by simp [jLookup])
    | str s => exact absurd hm (by simp [jLookup])
    | null => exact absurd hm (by simp [jLookup])
    | arr xs => exact absurd hm (by simp [jLookup])
  | num q => exact absurd heo (by simp [jLookup])
  | str s => exact absurd heo (by simp [jLookup])
  | null => exact absurd heo (by simp [jLookup])
  | arr xs => exact absurd heo (by simp [jLookup])

theorem process_httperror_noMessage (j : Json) (reason : String)
    (h : ∀ m, ¬ hasMessage j m) :
    process_httperror (some j) reason = .str reason := by
  cases j with
  | obj fs =>
    cases heo : lookupField fs "error" with
    | none => simp only [process_httperror, heo]
    | some ev =>
      cases ev with
      | obj efs =>
        cases hm : lookupField efs "message" with
        | none => simp only [process_httperror, heo, hm]
        | some m => exact absurd ⟨Json.obj efs, heo, hm⟩ (h m)
      | num q => simp only [process_httperror, heo]
      | str s => simp only [process_httperror, heo]
      | null => simp only [process_httperror, heo]
      | arr xs => simp only [process_httperror, heo]
  | num q => rfl
  | str s => rfl
  | null => rfl
  | arr xs => rfl

/-- C4: for every upstream HTTP error response, the endpoint surfaces the
result of `process_httperror` at status 400; when the body parses as JSON
and carries a (non-empty string) message at path `error.message`, that
exact message is surfaced; when the body is absent/non-JSON or lacks that
field, the HTTP reason phrase is surfaced instead, also at 400. -/
theorem httperror_message_surfaced (city : String) (days : Option String) (n : ℤ)
    (hv : validate_days days = .valid n) (body : Option Json) (reason : String) :
    get_aggregated_weather_forecast city days (.httpError body reason) =
      ⟨.raw (process_httperror body reason), 400⟩ ∧
    (∀ j m, body = some j → hasMessage j (.str m) → m ≠ "" →
      process_httperror body reason = .str m) ∧
    (body = none → process_httperror body reason = .str reason) ∧
    (∀ j, body = some j → (∀ m, ¬ hasMessage j m) →
      process_httperror body reason = .str reason) := by
  refine ⟨?_, ?_, ?_, ?_⟩
  · unfold get_aggregated_weather_forecast
    rw [hv]
  · rintro j m rfl hmsg hne
    rw [process_httperror_hasMessage j (.str m) reason hmsg]
    have hf : process_httperror.jFalsy (.str m) = false := by
      simp only [process_httperror.jFalsy]
      cases he : m.isEmpty
      · rfl
      · exact absurd ((String.isEmpty_iff m).mp he) hne
    rw [hf]
    rfl
  · rintro rfl; rfl
  · rintro j rfl hno
    exact process_httperror_noMessage j reason hno

/-- Witness for C4: an upstream 400 whose body carries
`error.message = "No matching location found."` surfaces exactly that
message at 400, and an upstream error with a non-JSON body surfaces the
reason phrase. -/
theorem httperror_message_surfaced_witness :
    validate_days (some "3") = .valid 3 ∧
    get_aggregated_weather_forecast "LONDON" (some "3")
        (.httpError (some (Json.obj [("error", Json.obj [("code", Json.num 1006),
          ("message", Json.str "No matching location found.")])])) "Bad Request") =
      ⟨.raw (Json.str "No matching location found."), 400⟩ ∧
    process_httperror none "Not Found" = .str "Not Found" := by
  have h := httperror_message_surfaced "LONDON" (some "3") 3 (by decide)
    (some (Json.obj [("error", Json.obj [("code", Json.num 1006),
      ("message", Json.str "No matching location found.")])])) "Bad Request"
  have h2 := httperror_message_surfaced "LONDON" (some "3") 3 (by decide) none "Not Found"
  refine ⟨by decide, ?_, h2.2.2.1 rfl⟩
  rw [h.1, h.2.1 _ "No matching location found." rfl
    ⟨Json.obj [("code", Json.num 1006), ("message", Json.str "No matching location found.")],
      rfl, rfl⟩ (by decide)]

/-- C10: `process_httperror` is total over every HTTP-error outcome — it
always returns either the reason phrase or a non-falsy extracted message
(never an unhandled failure) — and when `error.message` is present but
falsy (empty string or null) it returns the reason phrase instead of the
extracted value. -/
theorem process_httperror_total_and_falsy (body : Option Json) (reason : String) :
    (process_httperror body reason = .str reason ∨
      ∃ j m, body = some j ∧ hasMessage j m ∧ process_httperror.jFalsy m = false ∧
        process_httperror body reason = m) ∧
    (∀ j m, body = some j → hasMessage j m → (m = .str "" ∨ m = .null) →
      process_httperror body reason = .str reason) := by
  constructor
  · cases body with
    | none => exact Or.inl rfl
    | some j =>
      by_cases h : ∃ m, hasMessage j m
      · obtain ⟨m, hm⟩ := h
        cases hf : process_httperror.jFalsy m with
        | false =>
          refine Or.inr ⟨j, m, rfl, hm, hf, ?_⟩
          rw [process_httperror_hasMessage j m reason hm, hf]
          rfl
        | true =>
          refine Or.inl ?_
          rw [process_httperror_hasMessage j m reason hm, hf]
          rfl
      · push_neg at h
        exact Or.inl (process_httperror_noMessage j reason h)
  · rintro j m rfl hm hfal
    have hf : process_httperror.jFalsy m = true := by
      rcases hfal with rfl | rfl <;> rfl
    rw [process_httperror_hasMessage j m reason hm, hf]
    rfl

/-- Witness for C10: an empty-string `error.message` falls back to the
reason phrase. -/
theorem process_httperror_total_and_falsy_witness :
    hasMessage (Json.obj [("error", Json.obj [("message", Json.str "")])]) (Json.str "") ∧
    process_httperror (some (Json.obj [("error", Json.obj [("message", Json.str "")])]))
      "Not Found" = .str "Not Found" :=
  ⟨⟨Json.obj [("message", Json.str "")], rfl, rfl⟩,
    (process_httperror_total_and_falsy
      (some (Json.obj [("error", Json.obj [("message", Json.str "")])])) "Not Found").2
      _ (Json.str "") rfl ⟨Json.obj [("message", Json.str "")], rfl, rfl⟩ (Or.inl rfl)⟩

theorem pyRound1_intCast (n : ℤ) : pyRound1 ((n : ℤ) : ℚ) = (n : ℚ) := by
  unfold pyRound1
  rw [show ((n : ℚ) * 10) = ((n * 10 : ℤ) : ℚ) by push_cast; ring, roundHalfEven_intCast]
  push_cast
  exact mul_div_cancel_right₀ _ (by norm_num)

theorem view_success_eq (city : String) (days : Option String) (n : ℤ)
    (hv : validate_days days = .valid n) (body : Option Json) :
    get_aggregated_weather_forecast city days (.success body) =
      (match construct_core body with
        | some d => ⟨.stats d, 200⟩
        | none => ⟨.raw (.str "Internal server error."), 500⟩) := by
  unfold get_aggregated_weather_forecast
  rw [hv]
  cases h : construct_core body <;> simp only [construct_forecast_payload, h] <;> rfl

theorem ragged_core :
    construct_core (some (encodeForecast [⟨30, 10, List.replicate 23 24⟩])) =
      some ⟨some 30, some 10, 23, 24⟩ := by
  have hb : (0 : ℕ) < ([⟨30, 10, List.replicate 23 24⟩] : List Day).length := by norm_num
  have hh1 : (11 : ℕ) <
      (([⟨30, 10, List.replicate 23 24⟩] : List Day).get ⟨0, hb⟩).hours.length := by
    simp
  have hh2 : (12 : ℕ) <
      (([⟨30, 10, List.replicate 23 24⟩] : List Day).get ⟨0, hb⟩).hours.length := by
    simp
  unfold construct_core
  rw [Option.some_bind, jLookup_forecast, Option.some_bind, jLookup_forecastday,
    Option.some_bind]
  rw [show asArr (Json.arr ([(⟨30, 10, List.replicate 23 24⟩ : Day)].map encodeDay)) =
    some ([(⟨30, 10, List.replicate 23 24⟩ : Day)].map encodeDay) from rfl, Option.some_bind]
  simp only [List.length_map, List.length_cons, List.length_nil]
  rw [if_neg (by norm_num)]
  simp only
  rw [show (((0 + 1) * 24 / 2 / 24 : ℕ) : ℤ) = ((0 : ℕ) : ℤ) by norm_num]
  rw [show ((((0 + 1) * 24 / 2 % 24 : ℕ) : ℤ) - 1) = ((11 : ℕ) : ℤ) by norm_num]
  rw [show (((0 + 1) * 24 / 2 % 24 : ℕ) : ℤ) = ((12 : ℕ) : ℤ) by norm_num]
  rw [getTemp_encode _ 0 11 hb hh1, Option.some_bind]
  rw [getTemp_encode _ 0 12 hb hh2, Option.some_bind]
  rw [loopDays_encode, Option.some_bind]
  have hmed : pyRound1 ((24 + 24) / 2) = (24 : ℚ) := by
    rw [show ((24 : ℚ) + 24) / 2 = ((24 : ℤ) : ℚ) by norm_num, pyRound1_intCast]
    norm_num
  have hsum : totalSum [(⟨30, 10, List.replicate 23 24⟩ : Day)] = 552 := by
    simp only [totalSum, List.map_cons, List.map_nil, List.sum_cons, List.sum_nil,
      List.sum_replicate]
    norm_num
  have havg : pyRound1 (pyRound1 ((0 + totalSum [(⟨30, 10, List.replicate 23 24⟩ : Day)]) /
      (((0 + 1) * 24 : ℕ) : ℚ))) = 23 := by
    rw [hsum]
    rw [show ((0 : ℚ) + 552) / (((0 + 1) * 24 : ℕ) : ℚ) = ((23 : ℤ) : ℚ) by norm_num]
    rw [pyRound1_intCast, pyRound1_intCast]
    norm_num
  rw [show (([(⟨30, 10, List.replicate 23 24⟩ : Day)].get ⟨0, hb⟩).hours.get ⟨11, hh1⟩) =
    (24 : ℚ) from List.get_replicate _ _]
  rw [show (([(⟨30, 10, List.replicate 23 24⟩ : Day)].get ⟨0, hb⟩).hours.get ⟨12, hh2⟩) =
    (24 : ℚ) from List.get_replicate _ _]
  rw [hmed, havg]
  rfl

/-- C2 counterexample: a one-day 2xx payload whose single hour array has
23 entries (≠ 24) is NOT classified as malformed — the endpoint returns a
200 statistics payload (summing the 23 present readings and dividing by
24), not the 500 "Internal server error." the claim requires. -/
theorem ragged_hours_silently_accepted :
    (∀ d ∈ ([⟨30, 10, List.replicate 23 24⟩] : List Day), d.hours.length ≠ 24) ∧
    get_aggregated_weather_forecast "LONDON" (some "1")
        (.success (some (encodeForecast [⟨30, 10, List.replicate 23 24⟩]))) =
      ⟨.stats ⟨some 30, some 10, 23, 24⟩, 200⟩ ∧
    get_aggregated_weather_forecast "LONDON" (some "1")
        (.success (some (encodeForecast [⟨30, 10, List.replicate 23 24⟩]))) ≠
      ⟨.raw (.str "Internal server error."), 500⟩ := by
  have hview : get_aggregated_weather_forecast "LONDON" (some "1")
      (.success (some (encodeForecast [⟨30, 10, List.replicate 23 24⟩]))) =
      ⟨.stats ⟨some 30, some 10, 23, 24⟩, 200⟩ := by
    rw [view_success_eq "LONDON" (some "1") 1 (by decide), ragged_core]
  refine ⟨by decide, hview, ?_⟩
  intro h
  rw [hview] at h
  exact absurd (congrArg HttpResponse.status h) (by decide)

/-- C2 (amended): for every 2xx upstream response whose body fails to
parse or reduce — non-JSON body, missing `forecast`/`forecastday` keys,
an empty day list, or non-numeric temperature values reached by the
computation — the endpoint returns "Internal server error." at 500 and
never crashes (every 2xx outcome yields either that 500 or a 200
statistics payload); however an hour array of length ≠ 24 is not itself
detected: it only causes the error when it makes a median index fall out
of range, and otherwise yields a silent partial result. -/
theorem malformed_payload_500 (city : String) (days : Option String) (n : ℤ)
    (hv : validate_days days = .valid n) :
    (∀ body, construct_core body = none →
      get_aggregated_weather_forecast city days (.success body) =
        ⟨.raw (.str "Internal server error."), 500⟩) ∧
    (∀ body d, construct_core body = some d →
      get_aggregated_weather_forecast city days (.success body) = ⟨.stats d, 200⟩) ∧
    construct_core none = none ∧
    construct_core (some (Json.obj [("location", Json.str "London")])) = none ∧
    construct_core (some (encodeForecast [])) = none ∧
    construct_core (some (Json.obj [("forecast", Json.obj [("forecastday",
      Json.arr [Json.obj [("day", Json.obj [("maxtemp_c", Json.num 1),
        ("mintemp_c", Json.num 0)]),
        ("hour", Json.arr (List.replicate 24
          (Json.obj [("temp_c", Json.str "NA")])))]])])])) = none := by
  refine ⟨?_, ?_, rfl, by decide, by decide, by decide⟩
  · intro body h
    rw [view_success_eq city days n hv, h]
  · intro body d h
    rw [view_success_eq city days n hv, h]

/-- Witness for C2 (amended): a concrete empty-object 2xx body yields the
500 with "Internal server error.". -/
theorem malformed_payload_500_witness :
    validate_days (some "5") = .valid 5 ∧
    construct_core (some (Json.obj [])) = none ∧
    get_aggregated_weather_forecast "LONDON" (some "5") (.success (some (Json.obj []))) =
      ⟨.raw (.str "Internal server error."), 500⟩ :=
  ⟨by decide, by decide,
    (malformed_payload_500 "LONDON" (some "5") 5 (by decide)).1
      (some (Json.obj [])) (by decide)⟩

end Weather
